import Mathlib

/-!
Shallow embedding of the pkl-python evaluator protocol client
(`src/pkl-python/evalutor/evaluator.py`, `evaluator_manager.py`,
`src/pkl-python/types/incoming.py`, `outgoing.py`) together with theorems
checking the natural-language specification against it.

Machine integers are modelled as `Nat` with explicit reduction modulo `2 ^ 63`
where the 63-bit request-id space matters.  Fallible code returns `Except`.
Stateful methods are explicit state-passing functions.
-/

namespace PklPython

/-! ## Message-kind codes

The `types.codes` module is referenced throughout the source but is not part
of the repository snapshot; only its names appear.  Each constant below is
therefore modelled, with the engine protocol's customary numbering; no claim
depends on the concrete values, only on their distinctness.
-/

namespace codes

/-- Modelled from the spec: message-kind code of the create-evaluator request
(the `codes` module is referenced but absent from the source tree). -/
def NewEvaluator : Nat := 32

/-- Modelled from the spec: message-kind code of the create-evaluator
response. -/
def NewEvaluatorResponse : Nat := 33

/-- Modelled from the spec: message-kind code of the close-evaluator
request. -/
def CloseEvaluator : Nat := 34

/-- Modelled from the spec: message-kind code of the evaluate request. -/
def Evaluate : Nat := 35

/-- Modelled from the spec: message-kind code of the evaluate response. -/
def EvaluateResponse : Nat := 36

/-- Modelled from the spec: message-kind code of a log event. -/
def EvaluateLog : Nat := 37

/-- Modelled from the spec: message-kind code of a read-resource callback
request. -/
def EvaluateRead : Nat := 38

/-- Modelled from the spec: message-kind code of a read-resource callback
response. -/
def EvaluateReadResponse : Nat := 39

/-- Modelled from the spec: message-kind code of a read-module callback
request. -/
def EvaluateReadModule : Nat := 40

/-- Modelled from the spec: message-kind code of a read-module callback
response. -/
def EvaluateReadModuleResponse : Nat := 41

/-- Modelled from the spec: message-kind code of a list-resources callback
request. -/
def ListResourcesRequest : Nat := 42

/-- Modelled from the spec: message-kind code of a list-resources callback
response. -/
def ListResourcesResponse : Nat := 43

/-- Modelled from the spec: message-kind code of a list-modules callback
request. -/
def ListModulesRequest : Nat := 44

/-- Modelled from the spec: message-kind code of a list-modules callback
response. -/
def ListModulesResponse : Nat := 45

end codes

/-! ## Incoming and outgoing message shapes (`types/incoming.py`, `types/outgoing.py`) -/

/-- `incoming.py` `EvaluateResponse`: result bytes are the raw payload,
`error` is the engine's error string (empty means success). -/
structure EvaluateResponse where
  requestId : Nat
  evaluatorId : Nat
  result : List Nat
  error : String
  deriving DecidableEq

/-- `incoming.py` `ReadResource` callback request. -/
structure ReadResource where
  requestId : Nat
  evaluatorId : Nat
  uri : String
  deriving DecidableEq

/-- `incoming.py` `ReadModule` callback request. -/
structure ReadModule where
  requestId : Nat
  evaluatorId : Nat
  uri : String
  deriving DecidableEq

/-- `incoming.py` `ListResources` callback request. -/
structure ListResources where
  requestId : Nat
  evaluatorId : Nat
  uri : String
  deriving DecidableEq

/-- `incoming.py` `ListModules` callback request. -/
structure ListModules where
  requestId : Nat
  evaluatorId : Nat
  uri : String
  deriving DecidableEq

/-- `incoming.py` `Log` event. -/
structure Log where
  evaluatorId : Nat
  level : Nat
  message : String
  frameUri : String
  deriving DecidableEq

/-- The fields of a decoded generic incoming record that the manager's read
loop (`EvaluatorManager.decode`) inspects for dispatch: the message-kind code,
the request id and the evaluator id. -/
structure Incoming where
  code : Nat
  requestId : Nat
  evaluatorId : Nat
  deriving DecidableEq

/-- `outgoing.py` `Evaluate` request, as constructed by
`evaluate_expression_raw`. -/
structure Evaluate where
  requestId : Nat
  evaluatorId : Nat
  moduleUri : String
  code : Nat
  expr : String
  moduleText : String
  deriving DecidableEq

/-- A response frame sent by a callback handler: the dict literal
`{'evaluatorId': ..., 'requestId': ..., 'code': ...}` possibly extended with
an `error`, `contents` or `pathElements` entry. -/
structure OutFrame where
  evaluatorId : Nat
  requestId : Nat
  code : Nat
  error : Option String := none
  contents : Option (List Nat) := none
  pathElements : Option (List String) := none
  deriving DecidableEq

/-! ## `urllib.parse.urlparse`, restricted to what the handlers consult

The handlers use only `url.scheme` (and the fact that parsing may raise).
Python's parser takes the prefix before the first colon as the scheme when it
is non-empty, starts with an ASCII letter and consists of ASCII
letters/digits/`+`/`-`/`.`, and lowercases it; otherwise the scheme is empty.
Parsing raises `ValueError` when a `//`-led network location has unbalanced
IPv6 brackets. -/

/-- A character allowed in a URL scheme by `urllib.parse`. -/
def isSchemeChar (c : Char) : Bool :=
  c.isAlpha || c.isDigit || c == '+' || c == '-' || c == '.'

/-- Split a character list at its first colon, returning the prefix before it
and the suffix after it, or `none` when there is no colon. -/
def splitAtColon : List Char → Option (List Char × List Char)
  | [] => none
  | c :: cs =>
    if c == ':' then some ([], cs)
    else
      match splitAtColon cs with
      | none => none
      | some (pre, post) => some (c :: pre, post)

/-- Result of `urlparse` as consulted by the handlers: the (possibly empty)
scheme, and the remainder of the URL after the scheme. -/
structure Url where
  scheme : String
  rest : List Char

/-- The scheme/remainder split performed by `urllib.parse.urlsplit`. -/
def schemeSplit (uri : String) : String × List Char :=
  match splitAtColon uri.data with
  | none => ("", uri.data)
  | some ([], _) => ("", uri.data)
  | some (c :: cs, post) =>
    if c.isAlpha && (c :: cs).all isSchemeChar then
      (String.mk ((c :: cs).map Char.toLower), post)
    else ("", uri.data)

/-- `urllib.parse.urlparse`, as used by the callback handlers: extracts the
scheme and fails (raises `ValueError`) on an unbalanced IPv6 bracket in the
network location. -/
def urlparse (uri : String) : Except String Url :=
  let sp := schemeSplit uri
  match sp.2 with
  | '/' :: '/' :: netrest =>
    let netloc := netrest.takeWhile (fun ch => !(ch == '/' || ch == '?' || ch == '#'))
    if netloc.contains '[' != netloc.contains ']' then
      Except.error "Invalid IPv6 URL"
    else Except.ok { scheme := sp.1, rest := sp.2 }
  | _ => Except.ok { scheme := sp.1, rest := sp.2 }

/-! ## Readers (caller-supplied collaborators) -/

/-- A client-supplied reader: a URI scheme plus `read`/`list_elements`
operations, both of which may fail.  Resource and module readers share this
shape. -/
structure Reader where
  scheme : String
  read : Url → Except String (List Nat)
  list_elements : Url → Except String (List String)

/-! ## Evaluator session state (`EvaluatorImpl.__init__`) -/

/-- The mutable state of an `EvaluatorImpl`: evaluator id, the
`pending_requests` dict (an association list keyed by request id, holding the
stored `Evaluate` message), the closed flag, the registered readers, and
`rand_state` (initialised to the evaluator id). -/
structure SessionState where
  evaluatorId : Nat
  pendingRequests : List (Nat × Evaluate)
  closed : Bool
  resourceReaders : List Reader
  moduleReaders : List Reader
  randState : Nat

/-- `EvaluatorImpl.__init__`: empty pending table, open, no readers,
`rand_state` seeded with the evaluator id. -/
def EvaluatorImpl.init (evaluatorId : Nat) : SessionState :=
  { evaluatorId := evaluatorId, pendingRequests := [], closed := false,
    resourceReaders := [], moduleReaders := [], randState := evaluatorId }

/-- The 63-bit request-id space. -/
def pow63 : Nat := 2 ^ 63

/-- Modelled from the spec: `EvaluatorImpl.random_int63` is called by
`evaluate_expression_raw` but is defined nowhere in the source tree; the spec
describes it as "a 63-bit random or counter value" generated "by a counter or
random 63-bit generator seeded per session".  Modelled as a counter over the
session's `rand_state` (which `__init__` seeds with the evaluator id),
reduced modulo `2 ^ 63`. -/
def random_int63 (s : SessionState) : Nat × SessionState :=
  (s.randState % pow63, { s with randState := s.randState + 1 })

/-- `EvaluatorImpl.evaluate_expression_raw`, up to (and including) the point
where the `Evaluate` message is handed to `manager.send`: fails when the
session is closed, otherwise allocates a fresh request id, builds the
`Evaluate` message, records it in `pending_requests`, and returns the updated
state together with the message about to be sent. -/
def evaluate_expression_raw_send (s : SessionState) (moduleUri contents expr : String) :
    Except String (SessionState × Evaluate) :=
  if s.closed then Except.error "evaluator is closed"
  else
    let rid := (random_int63 s).1
    let s1 := (random_int63 s).2
    let ev : Evaluate :=
      { requestId := rid, evaluatorId := s.evaluatorId, moduleUri := moduleUri,
        code := codes.Evaluate, expr := expr, moduleText := contents }
    Except.ok ({ s1 with pendingRequests := (rid, ev) :: s1.pendingRequests }, ev)

/-- The tail of `EvaluatorImpl.evaluate_expression_raw`, after the awaited
response resolves: a truthy (non-empty) `error` field raises carrying the
engine-provided text, otherwise the result bytes are returned. -/
def evaluate_expression_raw_complete (resp : EvaluateResponse) : Except String (List Nat) :=
  if resp.error = "" then Except.ok resp.result
  else Except.error resp.error

/-- What `EvaluatorImpl.handle_evaluate_response` did with the incoming
response: either completed a waiter or warned about an unknown id. -/
inductive ResolveEffect where
  | warnedUnknown (requestId : Nat)
  | resolved (requestId : Nat)
  deriving DecidableEq

/-- `EvaluatorImpl.handle_evaluate_response`: looks the request id up in
`pending_requests`; when absent it prints a warning and returns, when present
it completes the waiter (`pending.resolve(msg)` — which does not remove the
dict entry). -/
def handle_evaluate_response (s : SessionState) (msg : EvaluateResponse) :
    SessionState × ResolveEffect :=
  match s.pendingRequests.find? (fun p => p.1 == msg.requestId) with
  | none => (s, ResolveEffect.warnedUnknown msg.requestId)
  | some _ => (s, ResolveEffect.resolved msg.requestId)

/-- `EvaluatorImpl.handle_log`: level 0 and level 1 print the message and the
frame URI; any other level raises `unknown log level`. -/
def handle_log (resp : Log) : Except String (String × String) :=
  if resp.level = 0 then Except.ok (resp.message, resp.frameUri)
  else if resp.level = 1 then Except.ok (resp.message, resp.frameUri)
  else Except.error ("unknown log level: " ++ toString resp.level)

/-- The base response dict `{'evaluatorId': ..., 'requestId': ..., 'code': ...}`
each callback handler builds before branching. -/
def baseFrame (evaluatorId requestId code : Nat) : OutFrame :=
  { evaluatorId := evaluatorId, requestId := requestId, code := code }

/-- `EvaluatorImpl.handle_read_resource`: builds the base response dict, then
sends exactly one frame on each branch — URL-parse failure, no matching
resource reader (the match compares `reader.scheme + ":"` with the parsed
scheme), successful `read`, or `read` raising. -/
def handle_read_resource (s : SessionState) (msg : ReadResource) : List OutFrame :=
  match urlparse msg.uri with
  | Except.error e =>
    [{ baseFrame s.evaluatorId msg.requestId codes.EvaluateReadResponse with
        error := some ("internal error: failed to parse resource url: " ++ e) }]
  | Except.ok url =>
    match s.resourceReaders.find? (fun r => r.scheme ++ ":" == url.scheme) with
    | none =>
      [{ baseFrame s.evaluatorId msg.requestId codes.EvaluateReadResponse with
          error := some ("No resource reader found for scheme " ++ url.scheme) }]
    | some reader =>
      match reader.read url with
      | Except.ok contents =>
        [{ baseFrame s.evaluatorId msg.requestId codes.EvaluateReadResponse with
            contents := some contents }]
      | Except.error e =>
        [{ baseFrame s.evaluatorId msg.requestId codes.EvaluateReadResponse with
            error := some e }]

/-- `EvaluatorImpl.handle_read_module`: same shape as `handle_read_resource`
over the module readers, with the read-module response code. -/
def handle_read_module (s : SessionState) (msg : ReadModule) : List OutFrame :=
  match urlparse msg.uri with
  | Except.error e =>
    [{ baseFrame s.evaluatorId msg.requestId codes.EvaluateReadModuleResponse with
        error := some ("internal error: failed to parse resource url: " ++ e) }]
  | Except.ok url =>
    match s.moduleReaders.find? (fun r => r.scheme ++ ":" == url.scheme) with
    | none =>
      [{ baseFrame s.evaluatorId msg.requestId codes.EvaluateReadModuleResponse with
          error := some ("No module reader found for scheme " ++ url.scheme) }]
    | some reader =>
      match reader.read url with
      | Except.ok contents =>
        [{ baseFrame s.evaluatorId msg.requestId codes.EvaluateReadModuleResponse with
            contents := some contents }]
      | Except.error e =>
        [{ baseFrame s.evaluatorId msg.requestId codes.EvaluateReadModuleResponse with
            error := some e }]

/-- `EvaluatorImpl.handle_list_resources`: same branch structure, calling
`list_elements` on the matching resource reader. -/
def handle_list_resources (s : SessionState) (msg : ListResources) : List OutFrame :=
  match urlparse msg.uri with
  | Except.error e =>
    [{ baseFrame s.evaluatorId msg.requestId codes.ListResourcesResponse with
        error := some ("internal error: failed to parse resource url: " ++ e) }]
  | Except.ok url =>
    match s.resourceReaders.find? (fun r => r.scheme ++ ":" == url.scheme) with
    | none =>
      [{ baseFrame s.evaluatorId msg.requestId codes.ListResourcesResponse with
          error := some ("No resource reader found for scheme " ++ url.scheme) }]
    | some reader =>
      match reader.list_elements url with
      | Except.ok pathElements =>
        [{ baseFrame s.evaluatorId msg.requestId codes.ListResourcesResponse with
            pathElements := some pathElements }]
      | Except.error e =>
        [{ baseFrame s.evaluatorId msg.requestId codes.ListResourcesResponse with
            error := some e }]

/-- `EvaluatorImpl.handle_list_modules`: same branch structure, calling
`list_elements` on the matching module reader. -/
def handle_list_modules (s : SessionState) (msg : ListModules) : List OutFrame :=
  match urlparse msg.uri with
  | Except.error e =>
    [{ baseFrame s.evaluatorId msg.requestId codes.ListModulesResponse with
        error := some ("internal error: failed to parse resource url: " ++ e) }]
  | Except.ok url =>
    match s.moduleReaders.find? (fun r => r.scheme ++ ":" == url.scheme) with
    | none =>
      [{ baseFrame s.evaluatorId msg.requestId codes.ListModulesResponse with
          error := some ("No module reader found for scheme " ++ url.scheme) }]
    | some reader =>
      match reader.list_elements url with
      | Except.ok pathElements =>
        [{ baseFrame s.evaluatorId msg.requestId codes.ListModulesResponse with
            pathElements := some pathElements }]
      | Except.error e =>
        [{ baseFrame s.evaluatorId msg.requestId codes.ListModulesResponse with
            error := some e }]

/-! ## Evaluator manager state (`EvaluatorManager`) -/

/-- The manager's mutable state: the `evaluators` session table keyed by
evaluator id, the keys of `pending_evaluators` (creation requests awaiting
their response), the closed flag, and whether the spawned child process is
still alive. -/
structure ManagerState where
  evaluators : List (Nat × SessionState)
  pendingEvaluators : List Nat
  closed : Bool
  processAlive : Bool

/-- `EvaluatorManager.__init__`, after `Popen` spawns the child: empty
tables, not closed, live process. -/
def EvaluatorManager.init : ManagerState :=
  { evaluators := [], pendingEvaluators := [], closed := false, processAlive := true }

/-- `EvaluatorManager.close`: `self.cmd.kill()` — terminates the child
process (and does nothing else). -/
def EvaluatorManager.close (m : ManagerState) : ManagerState :=
  { m with processAlive := false }

/-- `EvaluatorManager.get_evaluator`: dict lookup in the session table
(logging when absent). -/
def lookupEvaluator (m : ManagerState) (evaluatorId : Nat) : Option SessionState :=
  (m.evaluators.find? (fun p => p.1 == evaluatorId)).map (fun p => p.2)

/-- Mark a session closed (`self.closed = True` in `EvaluatorImpl.close`). -/
def markClosed (s : SessionState) : SessionState :=
  { s with closed := true }

/-- `EvaluatorImpl.close`, observed at the level of the whole client state:
sets the session's closed flag, then calls `self.manager.close()`. -/
def EvaluatorImpl.close (m : ManagerState) (evaluatorId : Nat) : ManagerState :=
  EvaluatorManager.close
    { m with
      evaluators := m.evaluators.map
        (fun p => if p.1 == evaluatorId then (p.1, markClosed p.2) else p) }

/-- The observable effect of one iteration of `EvaluatorManager.decode` on
one decoded message. -/
inductive ReadEffect where
  | droppedUnknownEvaluator (evaluatorId : Nat)
  | handledEvaluateResponse (evaluatorId : Nat)
  | handledLog (evaluatorId : Nat)
  | handledReadResource (evaluatorId : Nat)
  | handledReadModule (evaluatorId : Nat)
  | handledListResources (evaluatorId : Nat)
  | handledListModules (evaluatorId : Nat)
  | resolvedPendingEvaluator (requestId : Nat)
  | warnedUnknownRequest (requestId : Nat)
  | ignored
  deriving DecidableEq

/-- One iteration of the manager's read loop (`EvaluatorManager.decode`):
first `get_evaluator(decoded.evaluator_id)` — dropping the message when the
id is not in the session table (`if not ev: continue`) — and only then the
dispatch on the message-kind code, whose `NewEvaluatorResponse` arm resolves
`pending_evaluators` by the message's request id. -/
def decodeStep (m : ManagerState) (msg : Incoming) : ReadEffect :=
  match lookupEvaluator m msg.evaluatorId with
  | none => ReadEffect.droppedUnknownEvaluator msg.evaluatorId
  | some _ =>
    if msg.code = codes.EvaluateResponse then ReadEffect.handledEvaluateResponse msg.evaluatorId
    else if msg.code = codes.EvaluateLog then ReadEffect.handledLog msg.evaluatorId
    else if msg.code = codes.EvaluateRead then ReadEffect.handledReadResource msg.evaluatorId
    else if msg.code = codes.EvaluateReadModule then ReadEffect.handledReadModule msg.evaluatorId
    else if msg.code = codes.ListResourcesRequest then ReadEffect.handledListResources msg.evaluatorId
    else if msg.code = codes.ListModulesRequest then ReadEffect.handledListModules msg.evaluatorId
    else if msg.code = codes.NewEvaluatorResponse then
      if msg.requestId ∈ m.pendingEvaluators then ReadEffect.resolvedPendingEvaluator msg.requestId
      else ReadEffect.warnedUnknownRequest msg.requestId
    else ReadEffect.ignored

/-- Python's `str.split(sep)` for a single-character separator: splits at
every occurrence, keeping empty pieces (so the result is always
non-empty). -/
def pySplit (sep : Char) : List Char → List (List Char)
  | [] => [[]]
  | c :: cs =>
    if c == sep then [] :: pySplit sep cs
    else
      match pySplit sep cs with
      | [] => [[c]]
      | g :: gs => (c :: g) :: gs

/-- Python's `s.split(" ")` on a `String`. -/
def pyStrSplit (s : String) (sep : Char) : List String :=
  (pySplit sep s.data).map String.mk

/-- `EvaluatorManager.get_command_and_arg_strings`, as a function of the
constructor-supplied command override and of `os.environ.get("PKL_EXEC", "")`:
a non-empty override wins, else a non-empty `PKL_EXEC` split on spaces, else
the default `pkl`. -/
def get_command_and_arg_strings (pklCommand : List String) (pklExecEnv : String) :
    String × List String :=
  match pklCommand with
  | cmd :: args => (cmd, args)
  | [] =>
    if pklExecEnv ≠ "" then
      match pyStrSplit pklExecEnv ' ' with
      | [] => ("", [])
      | p :: ps => (p, ps)
    else ("pkl", [])

/-- `EvaluatorManager.get_start_command`: the resolved command with `server`
appended after its arguments. -/
def get_start_command (pklCommand : List String) (pklExecEnv : String) :
    String × List String :=
  let ca := get_command_and_arg_strings pklCommand pklExecEnv
  (ca.1, ca.2 ++ ["server"])

/-! ## Session operations as a step relation (for lifetime invariants) -/

/-- The operations that can touch a session's state during its lifetime. -/
inductive SessionOp where
  | evalRaw (moduleUri contents expr : String)
  | evalResponse (msg : EvaluateResponse)
  | logMsg (msg : Log)
  | closeOp
  | readResourceCb (msg : ReadResource)
  | readModuleCb (msg : ReadModule)
  | listResourcesCb (msg : ListResources)
  | listModulesCb (msg : ListModules)

/-- The effect of each session operation on the session's own state: the
callback handlers only send frames, `close` sets the flag (its manager-side
effect is modelled on `ManagerState`), and only `evaluate_expression_raw`
writes to `pending_requests`. -/
def sessionStep (s : SessionState) : SessionOp → SessionState
  | SessionOp.evalRaw u c e =>
    match evaluate_expression_raw_send s u c e with
    | Except.ok (s1, _) => s1
    | Except.error _ => s
  | SessionOp.evalResponse msg => (handle_evaluate_response s msg).1
  | SessionOp.logMsg _ => s
  | SessionOp.closeOp => markClosed s
  | SessionOp.readResourceCb _ => s
  | SessionOp.readModuleCb _ => s
  | SessionOp.listResourcesCb _ => s
  | SessionOp.listModulesCb _ => s

/-- The session state after the first `k` evaluate calls of a call sequence
whose arguments are given by `args`. -/
def sessionAfterSends (s : SessionState) (args : Nat → String × String × String) :
    Nat → SessionState
  | 0 => s
  | k + 1 =>
    let prev := sessionAfterSends s args k
    match evaluate_expression_raw_send prev (args k).1 (args k).2.1 (args k).2.2 with
    | Except.ok (s1, _) => s1
    | Except.error _ => prev

/-- The request id allocated by the `k`-th evaluate call of the sequence
(`none` when that call fails on a closed session). -/
def issuedId (s : SessionState) (args : Nat → String × String × String) (k : Nat) :
    Option Nat :=
  match evaluate_expression_raw_send (sessionAfterSends s args k)
      (args k).1 (args k).2.1 (args k).2.2 with
  | Except.ok (_, msg) => some msg.requestId
  | Except.error _ => none

/-! ## Helper lemmas -/

/-- On an open session, `evaluate_expression_raw_send` takes the success
branch: it allocates the id `rand_state % 2 ^ 63`, advances `rand_state`,
and prepends the id/message pair to `pending_requests`. -/
theorem send_open_spec (s : SessionState) (u c e : String) (h : s.closed = false) :
    evaluate_expression_raw_send s u c e =
      Except.ok
        ({ s with randState := s.randState + 1,
                  pendingRequests :=
                    (s.randState % pow63,
                      { requestId := s.randState % pow63, evaluatorId := s.evaluatorId,
                        moduleUri := u, code := codes.Evaluate, expr := e,
                        moduleText := c }) :: s.pendingRequests },
          { requestId := s.randState % pow63, evaluatorId := s.evaluatorId,
            moduleUri := u, code := codes.Evaluate, expr := e, moduleText := c }) := by
  simp [evaluate_expression_raw_send, random_int63, h]

/-- Iterating evaluate calls from an open session keeps it open and advances
`rand_state` by the number of calls. -/
theorem afterSends_open (s : SessionState) (args : Nat → String × String × String)
    (h : s.closed = false) (k : Nat) :
    (sessionAfterSends s args k).closed = false ∧
    (sessionAfterSends s args k).randState = s.randState + k := by
  induction k with
  | zero => exact ⟨h, rfl⟩
  | succ k ih =>
    obtain ⟨hc, hr⟩ := ih
    simp [sessionAfterSends, send_open_spec _ _ _ _ hc, hc, hr]
    all_goals omega

/-- The id issued by the `k`-th evaluate call of an open session is
`(rand_state + k) % 2 ^ 63`. -/
theorem issuedId_spec (s : SessionState) (args : Nat → String × String × String)
    (h : s.closed = false) (k : Nat) :
    issuedId s args k = some ((s.randState + k) % pow63) := by
  obtain ⟨hc, hr⟩ := afterSends_open s args h k
  simp [issuedId, send_open_spec _ _ _ _ hc, hr]

/-- Python's single-character `split` never returns the empty list. -/
theorem pySplit_ne_nil (sep : Char) (l : List Char) : pySplit sep l ≠ [] := by
  cases l with
  | nil => simp [pySplit]
  | cons c cs =>
    rw [pySplit]
    split
    · simp
    · split <;> simp

/-- `handle_read_resource` sends exactly one frame, carrying the incoming
request id and the session's evaluator id, on every branch. -/
theorem handle_read_resource_one_frame (s : SessionState) (msg : ReadResource) :
    ∃ f, handle_read_resource s msg = [f] ∧
      f.requestId = msg.requestId ∧ f.evaluatorId = s.evaluatorId := by
  unfold handle_read_resource
  split
  · exact ⟨_, rfl, rfl, rfl⟩
  · split
    · exact ⟨_, rfl, rfl, rfl⟩
    · split
      · exact ⟨_, rfl, rfl, rfl⟩
      · exact ⟨_, rfl, rfl, rfl⟩

/-- `handle_read_module` sends exactly one frame, carrying the incoming
request id and the session's evaluator id, on every branch. -/
theorem handle_read_module_one_frame (s : SessionState) (msg : ReadModule) :
    ∃ f, handle_read_module s msg = [f] ∧
      f.requestId = msg.requestId ∧ f.evaluatorId = s.evaluatorId := by
  unfold handle_read_module
  split
  · exact ⟨_, rfl, rfl, rfl⟩
  · split
    · exact ⟨_, rfl, rfl, rfl⟩
    · split
      · exact ⟨_, rfl, rfl, rfl⟩
      · exact ⟨_, rfl, rfl, rfl⟩

/-- `handle_list_resources` sends exactly one frame, carrying the incoming
request id and the session's evaluator id, on every branch. -/
theorem handle_list_resources_one_frame (s : SessionState) (msg : ListResources) :
    ∃ f, handle_list_resources s msg = [f] ∧
      f.requestId = msg.requestId ∧ f.evaluatorId = s.evaluatorId := by
  unfold handle_list_resources
  split
  · exact ⟨_, rfl, rfl, rfl⟩
  · split
    · exact ⟨_, rfl, rfl, rfl⟩
    · split
      · exact ⟨_, rfl, rfl, rfl⟩
      · exact ⟨_, rfl, rfl, rfl⟩

/-- `handle_list_modules` sends exactly one frame, carrying the incoming
request id and the session's evaluator id, on every branch. -/
theorem handle_list_modules_one_frame (s : SessionState) (msg : ListModules) :
    ∃ f, handle_list_modules s msg = [f] ∧
      f.requestId = msg.requestId ∧ f.evaluatorId = s.evaluatorId := by
  unfold handle_list_modules
  split
  · exact ⟨_, rfl, rfl, rfl⟩
  · split
    · exact ⟨_, rfl, rfl, rfl⟩
    · split
      · exact ⟨_, rfl, rfl, rfl⟩
      · exact ⟨_, rfl, rfl, rfl⟩

/-- No session operation removes a key from `pending_requests`. -/
theorem sessionStep_pending_mono (s : SessionState) (op : SessionOp) :
    s.pendingRequests.map Prod.fst ⊆ (sessionStep s op).pendingRequests.map Prod.fst := by
  cases op with
  | evalRaw u c e =>
    cases hcl : s.closed with
    | false =>
      rw [sessionStep, send_open_spec s u c e hcl]
      exact List.subset_cons_self _ _
    | true =>
      rw [sessionStep, evaluate_expression_raw_send]
      simp [hcl]
  | evalResponse msg =>
    rw [sessionStep, handle_evaluate_response]
    split <;> simp
  | logMsg msg => exact List.Subset.refl _
  | closeOp => exact List.Subset.refl _
  | readResourceCb msg => exact List.Subset.refl _
  | readModuleCb msg => exact List.Subset.refl _
  | listResourcesCb msg => exact List.Subset.refl _
  | listModulesCb msg => exact List.Subset.refl _

/-- Keys of `pending_requests` survive any sequence of session operations. -/
theorem foldl_pending_mono (ops : List SessionOp) : ∀ s : SessionState,
    s.pendingRequests.map Prod.fst ⊆ (ops.foldl sessionStep s).pendingRequests.map Prod.fst := by
  induction ops with
  | nil => intro s; exact List.Subset.refl _
  | cons op ops ih =>
    intro s
    exact (sessionStep_pending_mono s op).trans (ih (sessionStep s op))

/-! ## C1 -/

/-- A manager with one pending creation request (id 5) and no registered
session yet — the state in which the creation response arrives. -/
def exManagerC1 : ManagerState :=
  { evaluators := [], pendingEvaluators := [5], closed := false, processAlive := true }

/-- The create-evaluator response for pending request 5, carrying the freshly
assigned (hence unregistered) evaluator id 1. -/
def exMsgC1 : Incoming :=
  { code := codes.NewEvaluatorResponse, requestId := 5, evaluatorId := 1 }

/-- C1: the claim says a `NewEvaluatorResponse` message resolves the pending
entry of `pending_evaluators` keyed by its request id without requiring the
evaluator id to be registered.  The code violates this: the read loop calls
`get_evaluator` on every message first and `continue`s when the evaluator id
is unknown, so a creation response — whose evaluator id is by construction
not yet in the session table — is dropped and its pending entry is never
resolved. -/
theorem decode_drops_unregistered_creation_response :
    decodeStep exManagerC1 exMsgC1 = ReadEffect.droppedUnknownEvaluator 1 ∧
    decodeStep exManagerC1 exMsgC1 ≠ ReadEffect.resolvedPendingEvaluator 5 := by
  constructor
  · rfl
  · decide

/-! ## C2 -/

/-- A manager owning two open sessions (ids 1 and 2) with a live child
process. -/
def exManagerC2 : ManagerState :=
  { evaluators := [(1, EvaluatorImpl.init 1), (2, EvaluatorImpl.init 2)],
    pendingEvaluators := [], closed := false, processAlive := true }

/-- C2: the claim says a session's `close()` marks it closed, is idempotent,
and does not tear down the engine process — only manager `close()` does.
The code violates the last part: `EvaluatorImpl.close` calls
`self.manager.close()`, which is `self.cmd.kill()`, so closing one session
kills the child process for the manager and every other session.  The closed
flag and idempotence parts do hold, as recorded below. -/
theorem session_close_kills_child_process :
    exManagerC2.processAlive = true ∧
    (EvaluatorImpl.close exManagerC2 1).processAlive = false ∧
    (lookupEvaluator (EvaluatorImpl.close exManagerC2 1) 1).map SessionState.closed =
      some true ∧
    (lookupEvaluator (EvaluatorImpl.close exManagerC2 1) 2).map SessionState.closed =
      some false ∧
    EvaluatorImpl.close (EvaluatorImpl.close exManagerC2 1) 1 =
      EvaluatorImpl.close exManagerC2 1 :=
  ⟨rfl, rfl, rfl, rfl, rfl⟩

/-! ## C3 -/

/-- C3: every evaluate call on an open session allocates a fresh 63-bit
request id and records it in `pending_requests` before the `Evaluate` message
is handed to `manager.send`; ids issued at two distinct call positions (both
within the 63-bit id space) never coincide, so no two outstanding requests of
one session share an id.  The id generator is spec-modelled (see
`random_int63`). -/
theorem evaluate_request_ids_fresh (s : SessionState)
    (args : Nat → String × String × String) (i j : Nat)
    (hopen : s.closed = false) (hi : i < pow63) (hj : j < pow63) (hij : i ≠ j) :
    issuedId s args i ≠ issuedId s args j ∧
    ∃ s1 msg,
      evaluate_expression_raw_send (sessionAfterSends s args i)
          (args i).1 (args i).2.1 (args i).2.2 = Except.ok (s1, msg) ∧
      issuedId s args i = some msg.requestId ∧
      msg.requestId ∈ s1.pendingRequests.map Prod.fst := by
  obtain ⟨hc, hr⟩ := afterSends_open s args hopen i
  constructor
  · rw [issuedId_spec s args hopen i, issuedId_spec s args hopen j]
    intro heq
    have h1 : (s.randState + i) % pow63 = (s.randState + j) % pow63 :=
      Option.some.inj heq
    have h2 : i ≡ j [MOD pow63] := Nat.ModEq.add_left_cancel' s.randState h1
    have h3 : i = j := by
      have h4 := h2
      rw [Nat.ModEq, Nat.mod_eq_of_lt hi, Nat.mod_eq_of_lt hj] at h4
      exact h4
    exact hij h3
  · refine ⟨_, _, send_open_spec _ _ _ _ hc, ?_, ?_⟩
    · simp [issuedId_spec s args hopen i, hr]
    · simp

/-- Witness for C3 at a concrete session (evaluator id 0) and the first two
evaluate calls. -/
theorem evaluate_request_ids_fresh_witness :
    issuedId (EvaluatorImpl.init 0) (fun _ => ("m", "t", "x")) 0 ≠
      issuedId (EvaluatorImpl.init 0) (fun _ => ("m", "t", "x")) 1 ∧
    ∃ s1 msg,
      evaluate_expression_raw_send
          (sessionAfterSends (EvaluatorImpl.init 0) (fun _ => ("m", "t", "x")) 0)
          "m" "t" "x" = Except.ok (s1, msg) ∧
      issuedId (EvaluatorImpl.init 0) (fun _ => ("m", "t", "x")) 0 = some msg.requestId ∧
      msg.requestId ∈ s1.pendingRequests.map Prod.fst :=
  evaluate_request_ids_fresh (EvaluatorImpl.init 0) (fun _ => ("m", "t", "x")) 0 1 rfl
    (by norm_num [pow63]) (by norm_num [pow63]) (by decide)

/-! ## C4 -/

/-- A caller-supplied resource reader for scheme `memory` whose `read`
returns the bytes `[1, 2, 3]`. -/
def memReader : Reader :=
  { scheme := "memory",
    read := fun _ => Except.ok [1, 2, 3],
    list_elements := fun _ => Except.ok [] }

/-- A session (evaluator id 7) with `memReader` registered. -/
def exSessionC4 : SessionState :=
  { evaluatorId := 7, pendingRequests := [], closed := false,
    resourceReaders := [memReader], moduleReaders := [], randState := 7 }

/-- The engine's read-resource callback for `memory://x`. -/
def exReadMsg : ReadResource := { requestId := 9, evaluatorId := 7, uri := "memory://x" }

/-- C4: the claim says a ReadResource callback whose URI scheme matches a
registered reader invokes that reader and responds with its bytes.  The code
violates this: the reader lookup compares `reader.scheme + ":"` with
`urlparse(uri).scheme`, and Python's parsed scheme never carries a trailing
colon (`"memory:" ≠ "memory"`), so the lookup always fails and the handler
answers with a `No resource reader found` error instead of the reader's
bytes — even though the reader would have returned `[1, 2, 3]`. -/
theorem read_resource_reader_never_matches :
    handle_read_resource exSessionC4 exReadMsg =
      [{ evaluatorId := 7, requestId := 9, code := codes.EvaluateReadResponse,
         error := some "No resource reader found for scheme memory",
         contents := none, pathElements := none }] ∧
    memReader.read { scheme := "memory", rest := "//x".data } = Except.ok [1, 2, 3] := by
  constructor
  · decide
  · rfl

/-! ## C5 -/

/-- C5: once an `EvaluateResponse` resolves, `evaluate_expression_raw`
returns the result bytes when the error field is the empty string, and raises
carrying exactly the engine-provided error text when it is non-empty. -/
theorem evaluate_response_outcome (resp : EvaluateResponse) :
    (resp.error = "" → evaluate_expression_raw_complete resp = Except.ok resp.result) ∧
    (resp.error ≠ "" → evaluate_expression_raw_complete resp = Except.error resp.error) := by
  constructor
  · intro h
    simp [evaluate_expression_raw_complete, h]
  · intro h
    simp [evaluate_expression_raw_complete, h]

/-- A successful evaluate response (empty error field). -/
def exRespOk : EvaluateResponse :=
  { requestId := 1, evaluatorId := 1, result := [4, 5], error := "" }

/-- A failed evaluate response carrying engine error text. -/
def exRespErr : EvaluateResponse :=
  { requestId := 2, evaluatorId := 1, result := [], error := "boom" }

/-- Witness for C5 on one successful and one failed concrete response. -/
theorem evaluate_response_outcome_witness :
    evaluate_expression_raw_complete exRespOk = Except.ok [4, 5] ∧
    evaluate_expression_raw_complete exRespErr = Except.error "boom" :=
  ⟨(evaluate_response_outcome exRespOk).1 rfl,
   (evaluate_response_outcome exRespErr).2 (by decide)⟩

/-! ## C6 -/

/-- C6: a Log callback with level 0 or 1 emits the message (and frame URI) to
the logging sink; any other level raises `unknown log level` instead of being
silently ignored. -/
theorem handle_log_levels (resp : Log) :
    (resp.level = 0 ∨ resp.level = 1 →
      handle_log resp = Except.ok (resp.message, resp.frameUri)) ∧
    (resp.level ≠ 0 → resp.level ≠ 1 →
      handle_log resp = Except.error ("unknown log level: " ++ toString resp.level)) := by
  constructor
  · rintro (h | h) <;> simp [handle_log, h]
  · intro h0 h1
    simp [handle_log, h0, h1]

/-- A trace-level log event. -/
def exLog0 : Log := { evaluatorId := 1, level := 0, message := "hello", frameUri := "f" }

/-- A log event with an out-of-protocol level. -/
def exLog9 : Log := { evaluatorId := 1, level := 9, message := "hello", frameUri := "f" }

/-- Witness for C6 at levels 0 and 9. -/
theorem handle_log_levels_witness :
    handle_log exLog0 = Except.ok (exLog0.message, exLog0.frameUri) ∧
    handle_log exLog9 = Except.error ("unknown log level: " ++ toString exLog9.level) :=
  ⟨(handle_log_levels exLog0).1 (Or.inl rfl),
   (handle_log_levels exLog9).2 (by decide) (by decide)⟩

/-! ## C7 -/

/-- Python's space-split of a string is never the empty list. -/
theorem pyStrSplit_ne_nil (s : String) (sep : Char) : pyStrSplit s sep ≠ [] := by
  simpa [pyStrSplit] using pySplit_ne_nil sep s.data

/-- C7: the engine start command resolves in this exact order — non-empty
explicit override list, else non-empty `PKL_EXEC` split on spaces, else the
default executable `pkl` — and the resolved command is always invoked with a
`server` subcommand appended after any override arguments. -/
theorem start_command_resolution (override : List String) (env : String) :
    (∀ cmd args, override = cmd :: args →
      get_start_command override env = (cmd, args ++ ["server"])) ∧
    (override = [] → env ≠ "" →
      get_start_command override env =
        ((pyStrSplit env ' ').headD "pkl", (pyStrSplit env ' ').tail ++ ["server"])) ∧
    (override = [] → env = "" →
      get_start_command override env = ("pkl", ["server"])) := by
  refine ⟨?_, ?_, ?_⟩
  · rintro cmd args rfl
    rfl
  · rintro rfl h
    cases hs : pyStrSplit env ' ' with
    | nil => exact absurd hs (pyStrSplit_ne_nil env ' ')
    | cons p ps => simp [get_start_command, get_command_and_arg_strings, h, hs]
  · rintro rfl rfl
    rfl

/-- Witness for C7 exercising all three resolution branches. -/
theorem start_command_resolution_witness :
    get_start_command ["/opt/pkl", "--v"] "x y" = ("/opt/pkl", ["--v", "server"]) ∧
    get_start_command [] "mypkl --flag" = ("mypkl", ["--flag", "server"]) ∧
    get_start_command [] "" = ("pkl", ["server"]) := by
  refine ⟨(start_command_resolution ["/opt/pkl", "--v"] "x y").1 "/opt/pkl" ["--v"] rfl,
    ?_, (start_command_resolution [] "").2.2 rfl rfl⟩
  exact (start_command_resolution [] "mypkl --flag").2.1 rfl (by decide)

/-! ## C8 -/

/-- C8: an `EvaluateResponse` whose request id is not a key of the session's
`pending_requests` is a no-op that surfaces a warning: the state is returned
unchanged, no waiter is completed, and (being a total function) nothing
escapes into the read loop. -/
theorem unknown_evaluate_response_noop (s : SessionState) (msg : EvaluateResponse)
    (h : msg.requestId ∉ s.pendingRequests.map Prod.fst) :
    handle_evaluate_response s msg = (s, ResolveEffect.warnedUnknown msg.requestId) := by
  have hf : s.pendingRequests.find? (fun p => p.1 == msg.requestId) = none := by
    rw [List.find?_eq_none]
    intro x hx hbeq
    exact h (List.mem_map.mpr ⟨x, hx, by simpa using hbeq⟩)
  simp [handle_evaluate_response, hf]

/-- A session with an empty pending table. -/
def exSessionC8 : SessionState := EvaluatorImpl.init 3

/-- An evaluate response for a request id (42) the session never issued. -/
def exRespC8 : EvaluateResponse :=
  { requestId := 42, evaluatorId := 3, result := [], error := "" }

/-- Witness for C8: the unknown-id response leaves the concrete session
unchanged and only warns. -/
theorem unknown_evaluate_response_noop_witness :
    handle_evaluate_response exSessionC8 exRespC8 =
      (exSessionC8, ResolveEffect.warnedUnknown 42) :=
  unknown_evaluate_response_noop exSessionC8 exRespC8 (by simp [exSessionC8, EvaluatorImpl.init])

/-! ## C9 -/

/-- C9: each of the four callback handlers sends exactly one response frame
per incoming callback — on the success, no-matching-reader, URI-parse-failure
and reader-exception branches alike — and that frame carries the incoming
message's request id and the session's evaluator id. -/
theorem callback_handlers_single_correlated_frame (s : SessionState)
    (rr : ReadResource) (rm : ReadModule) (lr : ListResources) (lm : ListModules) :
    (∃ f, handle_read_resource s rr = [f] ∧
      f.requestId = rr.requestId ∧ f.evaluatorId = s.evaluatorId) ∧
    (∃ f, handle_read_module s rm = [f] ∧
      f.requestId = rm.requestId ∧ f.evaluatorId = s.evaluatorId) ∧
    (∃ f, handle_list_resources s lr = [f] ∧
      f.requestId = lr.requestId ∧ f.evaluatorId = s.evaluatorId) ∧
    (∃ f, handle_list_modules s lm = [f] ∧
      f.requestId = lm.requestId ∧ f.evaluatorId = s.evaluatorId) :=
  ⟨handle_read_resource_one_frame s rr, handle_read_module_one_frame s rm,
   handle_list_resources_one_frame s lr, handle_list_modules_one_frame s lm⟩

/-! ## C10 -/

/-- C10: `evaluate_expression_raw` inserts the new request id into
`pending_requests`, and no session operation — including the resolution
performed by `handle_evaluate_response` — ever removes an entry, so every id
a session issues remains a key of its pending table for the session's
lifetime (any subsequent operation sequence). -/
theorem pending_requests_grow_monotonically (s : SessionState) (u c e : String)
    (s1 : SessionState) (msg : Evaluate)
    (h : evaluate_expression_raw_send s u c e = Except.ok (s1, msg))
    (ops : List SessionOp) :
    msg.requestId ∈ s1.pendingRequests.map Prod.fst ∧
    msg.requestId ∈ (ops.foldl sessionStep s1).pendingRequests.map Prod.fst := by
  have hmem : msg.requestId ∈ s1.pendingRequests.map Prod.fst := by
    cases hcl : s.closed with
    | true =>
      rw [evaluate_expression_raw_send] at h
      simp [hcl] at h
    | false =>
      rw [send_open_spec s u c e hcl] at h
      simp only [Except.ok.injEq, Prod.mk.injEq] at h
      obtain ⟨h1, h2⟩ := h
      subst h1
      subst h2
      simp
  exact ⟨hmem, foldl_pending_mono ops s1 hmem⟩

/-- The `Evaluate` message issued by the first evaluate call of a session with
evaluator id 2. -/
def exMsgC10 : Evaluate :=
  { requestId := 2, evaluatorId := 2, moduleUri := "u", code := codes.Evaluate,
    expr := "e", moduleText := "c" }

/-- The session state right after that first evaluate call recorded its id. -/
def exStateC10 : SessionState :=
  { evaluatorId := 2, pendingRequests := [(2, exMsgC10)], closed := false,
    resourceReaders := [], moduleReaders := [], randState := 3 }

/-- Witness for C10: the issued id 2 stays a key of the pending table across
a close and a resolving response. -/
theorem pending_requests_grow_monotonically_witness :
    exMsgC10.requestId ∈ exStateC10.pendingRequests.map Prod.fst ∧
    exMsgC10.requestId ∈
      (([SessionOp.closeOp,
          SessionOp.evalResponse
            { requestId := 2, evaluatorId := 2, result := [], error := "" }].foldl
              sessionStep exStateC10)).pendingRequests.map Prod.fst :=
  pending_requests_grow_monotonically (EvaluatorImpl.init 2) "u" "c" "e"
    exStateC10 exMsgC10 rfl _

end PklPython
